import Mathlib

/-!
Verification of the `tag-genie` CLI (src/main.py): a three-stage pipeline
(classification, audit, clean) over business-directory rows.  The decision
logic is embedded shallowly: CSV rows become a record of optional string
fields, Python floats become rationals, dictionaries become functions
returning `Option String`, and exceptions become `Except`/`Option`.
-/

namespace TagGenie

/-- Embeds `NONE_TAG = "None of the above"` (main.py line 26). -/
def NONE_TAG : String := "None of the above"

/-- Embeds the `TAG_MAP` dict (main.py lines 29-35): long AI tags to the
original short categories, used for comparison in audit/clean. -/
def TAG_MAP (tag : String) : Option String :=
  if tag = "Legal Services and Immigration Consultants" then some "Legal & Immigration"
  else if tag = "Chartered Accountants and Tax Consultants" then some "Finance & Tax"
  else if tag = "Relocation Services and Lifestyle Management" then some "Relocation & Lifestyle"
  else if tag = "Real Estate Agency and Property Rentals" then some "Real Estate"
  else if tag = "None of the above" then some "None"
  else none

/-- Embeds the `SHORT_TAG_MAP` dict (main.py lines 38-44): long AI tags to
the final short DB-friendly format, used for the final output in clean. -/
def SHORT_TAG_MAP (tag : String) : Option String :=
  if tag = "Legal Services and Immigration Consultants" then some "Legal"
  else if tag = "Chartered Accountants and Tax Consultants" then some "Finance"
  else if tag = "Relocation Services and Lifestyle Management" then some "Lifestyle"
  else if tag = "Real Estate Agency and Property Rentals" then some "Real Estate"
  else if tag = "None of the above" then some "None"
  else none

/-- Splits a character list at the first character satisfying `p`; the second
component is `none` when no such character occurs. -/
def splitOnChar (p : Char → Bool) : List Char → List Char × Option (List Char)
  | [] => ([], none)
  | c :: rest =>
    if p c then ([], some rest)
    else
      let (a, b) := splitOnChar p rest
      (c :: a, b)

/-- Numeric value of a list of decimal digit characters. -/
def digitsToNat (cs : List Char) : Nat :=
  cs.foldl (fun a c => a * 10 + (c.toNat - 48)) 0

/-- Strips one leading sign character, returning whether it was a minus. -/
def stripSign : List Char → Bool × List Char
  | '-' :: r => (true, r)
  | '+' :: r => (false, r)
  | r => (false, r)

/-- Models Python's `str.strip()` with no arguments: drop leading and
trailing whitespace.  Defined by structural recursion on the character list
(rather than `String.trim`) so that it evaluates by kernel reduction; the
builtin is a collaborator of main.py, not code of the repository. -/
def pyStrip (s : String) : String :=
  ⟨((s.toList.dropWhile Char.isWhitespace).reverse.dropWhile
      Char.isWhitespace).reverse⟩

/-- Models Python's builtin `float(s)` on finite decimal literals (optional
sign, digits with optional fraction, optional exponent, surrounding
whitespace); returns `none` where Python raises `ValueError`.  The builtin is
a collaborator of main.py, not code of the repository; infinities and NaN are
outside the rationals and outside every claim. -/
def pyFloat (s : String) : Option ℚ :=
  let cs := (pyStrip s).toList
  let (neg, cs) := stripSign cs
  let (mant, expPart) := splitOnChar (fun c => c = 'e' || c = 'E') cs
  let (ip, fpOpt) := splitOnChar (fun c => c = '.') mant
  let fp := fpOpt.getD []
  if ip.all Char.isDigit && fp.all Char.isDigit && (!ip.isEmpty || !fp.isEmpty) then
    let mval : ℚ := (digitsToNat ip : ℚ) + (digitsToNat fp : ℚ) / (10 ^ fp.length)
    let sval : ℚ := if neg then -mval else mval
    match expPart with
    | none => some sval
    | some ecs =>
      let (eneg, ecs) := stripSign ecs
      if !ecs.isEmpty && ecs.all Char.isDigit then
        let e : ℤ := if eneg then -(digitsToNat ecs : ℤ) else (digitsToNat ecs : ℤ)
        some (sval * (10 : ℚ) ^ e)
      else none
  else none

/-- One CSV row as read by `csv.DictReader` in the audit/clean stages:
the fields the logic reads (`Name`, `Category`, `Predicted_Tag`,
`Confidence_Score`), each `none` when the column is absent, plus every other
column as an uninterpreted association list. -/
structure InRow where
  name : Option String
  category : Option String
  predicted_Tag : Option String
  confidence_Score : Option String
  extra : List (String × String)
deriving Repr, DecidableEq

/-- Embeds `original = row.get('Category', '').strip()`
(main.py lines 139 and 219). -/
def rowOriginal (r : InRow) : String := pyStrip (r.category.getD "")

/-- Embeds `predicted_long = row.get('Predicted_Tag', '').strip()`
(main.py lines 140 and 220). -/
def rowPredicted (r : InRow) : String := pyStrip (r.predicted_Tag.getD "")

/-- Embeds the `try: confidence = float(row.get('Confidence_Score', 0.0))
except (ValueError, TypeError): confidence = 0.0` block (main.py lines
141-144 and 221-224): a missing column defaults to `0.0`, an unparsable
string is caught and replaced by `0.0`. -/
def rowConfidence (r : InRow) : ℚ :=
  match r.confidence_Score with
  | none => 0
  | some s => (pyFloat s).getD 0

/-- Embeds `predicted_short = TAG_MAP.get(predicted_long, predicted_long)`
(main.py lines 146 and 226). -/
def rowPredictedShort (r : InRow) : String :=
  (TAG_MAP (rowPredicted r)).getD (rowPredicted r)

/-- Embeds the per-row branch of the `clean` command (main.py lines 226-245):
from the trimmed original category, the trimmed predicted long tag and the
parsed confidence, compute `(Audit_Status, Final_Tag)`.  The Python
truthiness test `if final_tag and final_tag != "None"` becomes
`final_tag ≠ "" ∧ final_tag ≠ "None"` on the `some` branch. -/
def cleanDecision (original predicted_long : String) (confidence : ℚ) :
    String × String :=
  let predicted_short := (TAG_MAP predicted_long).getD predicted_long
  if confidence > 85/100 ∧ original ≠ predicted_short then
    match SHORT_TAG_MAP predicted_long with
    | some final_tag =>
      if final_tag ≠ "" ∧ final_tag ≠ "None" then ("AUTO_FIXED", final_tag)
      else ("VERIFIED", original)
    | none => ("VERIFIED", original)
  else if confidence < 1/2 then ("NEEDS_REVIEW", original)
  else ("VERIFIED", original)

/-- Modelled from the spec: the Clean Stage per-record policy as the spec
words it (§4.3 and claim C1) — `AUTO_FIXED` whenever `finalMap` contains
`predicted_label` with a value other than `"None"`, with no emptiness test on
the mapped value; stated separately so it can be compared with
`cleanDecision`, which embeds the code. -/
def specCleanPolicy (original predicted_long : String) (confidence : ℚ) :
    String × String :=
  let predicted_short := (TAG_MAP predicted_long).getD predicted_long
  if confidence > 85/100 ∧ original ≠ predicted_short then
    match SHORT_TAG_MAP predicted_long with
    | some final_tag =>
      if final_tag ≠ "None" then ("AUTO_FIXED", final_tag)
      else ("VERIFIED", original)
    | none => ("VERIFIED", original)
  else if confidence < 1/2 then ("NEEDS_REVIEW", original)
  else ("VERIFIED", original)

/-- An output row of the `clean` command: the input row plus the two added
columns `Audit_Status` and `Final_Tag` (main.py line 213). -/
structure OutRow extends InRow where
  audit_Status : String
  final_Tag : String
deriving Repr, DecidableEq

/-- Embeds one iteration of the `clean` loop body (main.py lines 217-246)
restricted to the row transformation: the input columns are written back
unchanged and `Audit_Status`/`Final_Tag` are set from `cleanDecision`. -/
def cleanRowFull (r : InRow) : OutRow :=
  let d := cleanDecision (rowOriginal r) (rowPredicted r) (rowConfidence r)
  { r with audit_Status := d.1, final_Tag := d.2 }

/-- Embeds the `clean` command's row output: one output row per input row,
in input order (main.py lines 217 and 246). -/
def cleanOutputs (rows : List InRow) : List OutRow :=
  rows.map cleanRowFull

/-- The counters of the `audit` command (main.py line 131) together with
the `danger_rows` sample list (main.py lines 132 and 156-161). -/
structure AuditState where
  total : Nat
  agreements : Nat
  highConfAgreements : Nat
  highConfDisagreements : Nat
  lowConf : Nat
  dangerRows : List (Option String × String × String × ℚ)
deriving Repr, DecidableEq

/-- The counters before the loop (main.py line 131). -/
def auditInit : AuditState :=
  { total := 0, agreements := 0, highConfAgreements := 0,
    highConfDisagreements := 0, lowConf := 0, dangerRows := [] }

/-- Embeds one iteration of the `audit` loop body (main.py lines 137-163):
count the row, bucket it by match and confidence, record danger rows, and
independently count low confidence. -/
def auditStep (s : AuditState) (r : InRow) : AuditState :=
  let original := rowOriginal r
  let confidence := rowConfidence r
  let predicted_short := rowPredictedShort r
  let s1 := { s with total := s.total + 1 }
  let s2 :=
    if original = predicted_short then
      { s1 with agreements := s1.agreements + 1,
                highConfAgreements :=
                  if confidence > 8/10 then s1.highConfAgreements + 1
                  else s1.highConfAgreements }
    else if confidence > 8/10 then
      { s1 with highConfDisagreements := s1.highConfDisagreements + 1,
                dangerRows := s1.dangerRows ++
                  [(r.name, original, rowPredicted r, confidence)] }
    else s1
  if confidence < 1/2 then { s2 with lowConf := s2.lowConf + 1 } else s2

/-- Embeds the whole `audit` counting loop (main.py lines 137-163). -/
def auditStats (rows : List InRow) : AuditState :=
  rows.foldl auditStep auditInit

/-- The percentages rendered by the audit report table
(main.py lines 172-175). -/
structure AuditReport where
  stats : AuditState
  agreementPct : ℚ
  highConfAgreementPct : ℚ
  lowConfPct : ℚ
  dangerPct : ℚ
deriving Repr, DecidableEq

/-- Embeds the report construction of the `audit` command (main.py lines
165-175): each percentage is `(count/total)*100`.  Python's `/` on integers
raises `ZeroDivisionError` when `total == 0`, and the source has no guard, so
the report is `Except.error ()` exactly when `total = 0`. -/
def auditReport (rows : List InRow) : Except Unit AuditReport :=
  let s := auditStats rows
  if s.total = 0 then Except.error ()
  else Except.ok
    { stats := s,
      agreementPct := ((s.agreements : ℚ) / (s.total : ℚ)) * 100,
      highConfAgreementPct := ((s.highConfAgreements : ℚ) / (s.total : ℚ)) * 100,
      lowConfPct := ((s.lowConf : ℚ) / (s.total : ℚ)) * 100,
      dangerPct := ((s.highConfDisagreements : ℚ) / (s.total : ℚ)) * 100 }

/-- Embeds `run_classification` (main.py lines 56-69).  The external
zero-shot classifier is a collaborator, passed as a function from text and
candidate tags to either a failure (a raised exception, modelled as
`Except.error`) or ranked parallel lists of labels and scores; the stage
reads the top-ranked pair, so an empty result list is itself the failure
`IndexError`.  Blank text short-circuits before the classifier is consulted. -/
def run_classification
    (classify : String → List String → Except String (List String × List ℚ))
    (text : String) (candidate_tags : List String) :
    Except String (String × ℚ) :=
  let text := pyStrip text
  if text = "" then Except.ok (NONE_TAG, 1)
  else
    match classify text (candidate_tags ++ [NONE_TAG]) with
    | Except.error e => Except.error e
    | Except.ok (labels, scores) =>
      match labels.head?, scores.head? with
      | some l, some sc => Except.ok (l, sc)
      | _, _ => Except.error "IndexError"

/-- One input row of the `process` command: the classifiable text column
(already looked up) plus the remaining columns uninterpreted. -/
structure ProcRow where
  text : String
  extra : List (String × String)
deriving Repr, DecidableEq

/-- An output row of the `process` command: the input columns plus
`Predicted_Tag` and `Confidence_Score` (main.py line 90). -/
structure ProcOutRow extends ProcRow where
  predicted_Tag : String
  confidence_Score : ℚ
deriving Repr, DecidableEq

/-- Embeds the per-row `try/except/finally` body of the `process` loop
(main.py lines 102-114): on success the winner tag and score are written; on
any failure the literal `"ERROR"` tag and `0.0` are written; either way the
row is written. -/
def processRow
    (classify : String → List String → Except String (List String × List ℚ))
    (candidate_tags : List String) (r : ProcRow) : ProcOutRow :=
  match run_classification classify r.text candidate_tags with
  | Except.ok (tag, score) =>
    { r with predicted_Tag := tag, confidence_Score := score }
  | Except.error _ =>
    { r with predicted_Tag := "ERROR", confidence_Score := 0 }

/-- Embeds the row-processing loop of the `process` command (main.py lines
102-114): every input row produces exactly one output row, in input order. -/
def process_csv
    (classify : String → List String → Except String (List String × List ℚ))
    (candidate_tags : List String) (rows : List ProcRow) : List ProcOutRow :=
  rows.map (processRow classify candidate_tags)

/-- The audit comparison predicate: trimmed original category equals the
mapped short form of the predicted tag (main.py line 147). -/
def matchB (r : InRow) : Bool := rowOriginal r == rowPredictedShort r

/-- High-confidence test of the audit stage (main.py lines 151 and 154). -/
def highConfB (r : InRow) : Bool := decide (rowConfidence r > 8/10)

/-- Low-confidence test of the audit stage (main.py line 162). -/
def lowConfB (r : InRow) : Bool := decide (rowConfidence r < 1/2)

section Helpers

theorem shortTagMap_ne_empty (p t : String) (h : SHORT_TAG_MAP p = some t) :
    t ≠ "" := by
  unfold SHORT_TAG_MAP at h
  split_ifs at h <;> simp_all <;> subst h <;> decide

theorem auditStep_total (s : AuditState) (r : InRow) :
    (auditStep s r).total = s.total + 1 := by
  simp only [auditStep]
  split_ifs <;> rfl

theorem auditStep_agreements (s : AuditState) (r : InRow) :
    (auditStep s r).agreements =
      if matchB r then s.agreements + 1 else s.agreements := by
  simp only [auditStep, matchB, beq_iff_eq]
  split_ifs <;> rfl

theorem auditStep_hca (s : AuditState) (r : InRow) :
    (auditStep s r).highConfAgreements =
      if matchB r && highConfB r then s.highConfAgreements + 1
      else s.highConfAgreements := by
  simp only [auditStep, matchB, highConfB, beq_iff_eq, Bool.and_eq_true,
    decide_eq_true_eq]
  split_ifs <;> first | rfl | simp_all

theorem auditStep_hcd (s : AuditState) (r : InRow) :
    (auditStep s r).highConfDisagreements =
      if !matchB r && highConfB r then s.highConfDisagreements + 1
      else s.highConfDisagreements := by
  simp only [auditStep, matchB, highConfB, Bool.and_eq_true, Bool.not_eq_true,
    beq_eq_false_iff_ne, ne_eq, decide_eq_true_eq]
  split_ifs <;> first | rfl | simp_all

theorem auditStep_lowConf (s : AuditState) (r : InRow) :
    (auditStep s r).lowConf =
      if lowConfB r then s.lowConf + 1 else s.lowConf := by
  simp only [auditStep, lowConfB, decide_eq_true_eq]
  split_ifs <;> rfl

theorem countP_and_le {α : Type} (p q : α → Bool) (l : List α) :
    l.countP (fun a => p a && q a) ≤ l.countP p := by
  induction l with
  | nil => simp
  | cons a l ih =>
    simp only [List.countP_cons]
    rcases hp : p a <;> rcases hq : q a <;> simp [hp, hq] <;> try omega

theorem countP_not_add {α : Type} (p : α → Bool) (l : List α) :
    l.countP p + l.countP (fun a => !p a) = l.length := by
  induction l with
  | nil => simp
  | cons a l ih =>
    simp only [List.countP_cons]
    rcases hp : p a <;> simp [hp] <;> try omega

theorem auditFold_total (rows : List InRow) : ∀ s : AuditState,
    (rows.foldl auditStep s).total = s.total + rows.length := by
  induction rows with
  | nil => simp
  | cons r rest ih =>
    intro s
    simp only [List.foldl_cons, List.length_cons, ih, auditStep_total]
    omega

theorem auditFold_agreements (rows : List InRow) : ∀ s : AuditState,
    (rows.foldl auditStep s).agreements = s.agreements + rows.countP matchB := by
  induction rows with
  | nil => simp
  | cons r rest ih =>
    intro s
    simp only [List.foldl_cons, List.countP_cons, ih, auditStep_agreements]
    split_ifs <;> omega

theorem auditFold_hca (rows : List InRow) : ∀ s : AuditState,
    (rows.foldl auditStep s).highConfAgreements =
      s.highConfAgreements + rows.countP (fun r => matchB r && highConfB r) := by
  induction rows with
  | nil => simp
  | cons r rest ih =>
    intro s
    simp only [List.foldl_cons, List.countP_cons, ih, auditStep_hca]
    split_ifs <;> omega

theorem auditFold_hcd (rows : List InRow) : ∀ s : AuditState,
    (rows.foldl auditStep s).highConfDisagreements =
      s.highConfDisagreements +
        rows.countP (fun r => !matchB r && highConfB r) := by
  induction rows with
  | nil => simp
  | cons r rest ih =>
    intro s
    simp only [List.foldl_cons, List.countP_cons, ih, auditStep_hcd]
    split_ifs <;> omega

theorem auditFold_lowConf (rows : List InRow) : ∀ s : AuditState,
    (rows.foldl auditStep s).lowConf = s.lowConf + rows.countP lowConfB := by
  induction rows with
  | nil => simp
  | cons r rest ih =>
    intro s
    simp only [List.foldl_cons, List.countP_cons, ih, auditStep_lowConf]
    split_ifs <;> omega

end Helpers

/-- C1: the Clean Stage's per-record assignment of `Audit_Status` and
`Final_Tag` coincides, for every trimmed original category, trimmed
predicted label and parsed confidence, with the precedence-ordered
reference policy of the spec (auto-fix test first, then the low-confidence
test, then the default), and every record receives exactly one of the
three statuses `AUTO_FIXED`, `VERIFIED`, `NEEDS_REVIEW`. -/
theorem clean_policy_matches_spec (original predicted_long : String)
    (confidence : ℚ) :
    cleanDecision original predicted_long confidence =
      specCleanPolicy original predicted_long confidence ∧
    ((cleanDecision original predicted_long confidence).1 = "AUTO_FIXED" ∨
     (cleanDecision original predicted_long confidence).1 = "VERIFIED" ∨
     (cleanDecision original predicted_long confidence).1 = "NEEDS_REVIEW") := by
  constructor
  · unfold cleanDecision specCleanPolicy
    rcases h : SHORT_TAG_MAP predicted_long with _ | t
    · simp [h]
    · have ht := shortTagMap_ne_empty predicted_long t h
      simp [h, ht]
  · unfold cleanDecision
    rcases h : SHORT_TAG_MAP predicted_long with _ | t <;>
      simp [h] <;> split_ifs <;> simp

/-- C2: for every Clean Stage record, either the status is `AUTO_FIXED` and
`Final_Tag` is `SHORT_TAG_MAP` applied to the predicted label with a value
that is neither the token `"None"` nor empty, or the status is not
`AUTO_FIXED` and `Final_Tag` is exactly the original category — so
`Final_Tag` is always the unmodified original category or a value from the
final map's range, never a raw unmapped label. -/
theorem clean_final_tag_invariant (original predicted_long : String)
    (confidence : ℚ) :
    ((cleanDecision original predicted_long confidence).1 = "AUTO_FIXED" ∧
      SHORT_TAG_MAP predicted_long =
        some (cleanDecision original predicted_long confidence).2 ∧
      (cleanDecision original predicted_long confidence).2 ≠ "None") ∨
    ((cleanDecision original predicted_long confidence).1 ≠ "AUTO_FIXED" ∧
      (cleanDecision original predicted_long confidence).2 = original) := by
  unfold cleanDecision
  rcases h : SHORT_TAG_MAP predicted_long with _ | t <;>
    simp [h] <;> split_ifs <;> simp_all

/-- C3: a Clean Stage record is `AUTO_FIXED` exactly when its confidence
exceeds `0.85`, its original category differs from the comparison form of
the predicted label, and `SHORT_TAG_MAP` maps the predicted label to a value
other than `"None"`; in particular the spec's scenario — original
`"Real Estate"`, predicted `"None of the above"`, confidence `0.95` — yields
`VERIFIED` with `Final_Tag "Real Estate"`. -/
theorem clean_auto_fixed_characterization (original predicted_long : String)
    (confidence : ℚ) :
    ((cleanDecision original predicted_long confidence).1 = "AUTO_FIXED" ↔
      confidence > 85/100 ∧
      original ≠ (TAG_MAP predicted_long).getD predicted_long ∧
      ∃ t, SHORT_TAG_MAP predicted_long = some t ∧ t ≠ "None") ∧
    cleanDecision "Real Estate" "None of the above" (95/100) =
      ("VERIFIED", "Real Estate") := by
  constructor
  · unfold cleanDecision
    rcases h : SHORT_TAG_MAP predicted_long with _ | t
    · simp [h]
      split_ifs <;> simp
    · have ht := shortTagMap_ne_empty predicted_long t h
      simp only [h]
      split_ifs with h1 h2 <;> simp_all
  · norm_num [cleanDecision, SHORT_TAG_MAP, TAG_MAP]
    all_goals decide

/-- C4: the claim says the Audit Stage guards its percentage computations
against a zero-record input; in the code the report construction divides
each counter by `total` with no guard, so on the empty input the report is
the `ZeroDivisionError` fault, modelled as `Except.error ()`. -/
theorem audit_zero_rows_division_fault :
    auditReport [] = Except.error () ∧ (auditStats []).total = 0 := by
  constructor <;> rfl

/-- C5: for every input sequence, the Audit Stage counters satisfy:
agreements plus the number of non-agreeing rows equals the total;
high-confidence agreements are at most the agreements; high-confidence
disagreements are at most the non-agreeing rows; the low-confidence counter
is exactly the number of rows with confidence below `0.5`, independent of
the match buckets — and a concrete matching row with default confidence `0`
lands in both the agreement bucket and the low-confidence count. -/
theorem audit_counter_invariants (rows : List InRow) :
    (auditStats rows).agreements + rows.countP (fun r => !matchB r) =
      (auditStats rows).total ∧
    (auditStats rows).highConfAgreements ≤ (auditStats rows).agreements ∧
    (auditStats rows).highConfDisagreements ≤
      (auditStats rows).total - (auditStats rows).agreements ∧
    (auditStats rows).lowConf = rows.countP lowConfB ∧
    (auditStats [⟨some "Overlap Shop", some "None", some "None of the above",
        none, []⟩]).agreements = 1 ∧
    (auditStats [⟨some "Overlap Shop", some "None", some "None of the above",
        none, []⟩]).lowConf = 1 := by
  have ht := auditFold_total rows auditInit
  have ha := auditFold_agreements rows auditInit
  have hca := auditFold_hca rows auditInit
  have hcd := auditFold_hcd rows auditInit
  have hl := auditFold_lowConf rows auditInit
  have hnot := countP_not_add matchB rows
  have hle1 := countP_and_le matchB highConfB rows
  have hle2 := countP_and_le (fun r => !matchB r) highConfB rows
  simp only [auditStats, auditInit] at *
  refine ⟨by omega, by omega, by omega, by omega, ?_, ?_⟩
  · have h := auditFold_agreements
      [⟨some "Overlap Shop", some "None", some "None of the above", none, []⟩]
      auditInit
    have hm : matchB
        ⟨some "Overlap Shop", some "None", some "None of the above", none, []⟩ =
        true := by decide
    simp [auditStats, auditInit, List.countP_cons, hm] at h
    exact h
  · have h := auditFold_lowConf
      [⟨some "Overlap Shop", some "None", some "None of the above", none, []⟩]
      auditInit
    have hlow : lowConfB
        ⟨some "Overlap Shop", some "None", some "None of the above", none, []⟩ =
        true := by
      simp only [lowConfB, rowConfidence, decide_eq_true_eq]
      norm_num
    simp [auditStats, auditInit, List.countP_cons, hlow] at h
    exact h

/-- C6: on input text that is empty or whitespace-only, the Classification
Stage returns the sentinel label with confidence exactly `1.0`, and the
result does not depend on the classifier collaborator at all (so the
classifier is not consulted). -/
theorem classification_blank_short_circuit
    (classify classify2 :
      String → List String → Except String (List String × List ℚ))
    (text : String) (candidate_tags : List String)
    (h : pyStrip text = "") :
    run_classification classify text candidate_tags =
      Except.ok (NONE_TAG, 1) ∧
    run_classification classify text candidate_tags =
      run_classification classify2 text candidate_tags := by
  constructor <;> simp [run_classification, h]

/-- C6 witness: whitespace-only text with an always-failing classifier
still yields the sentinel with confidence `1`. -/
theorem classification_blank_short_circuit_witness :
    (pyStrip "  " = "") ∧
    run_classification (fun _ _ => Except.error "model down") "  " ["Tag"] =
      Except.ok (NONE_TAG, 1) :=
  ⟨rfl, (classification_blank_short_circuit
    (fun _ _ => Except.error "model down")
    (fun _ _ => Except.error "model down") "  " ["Tag"] rfl).1⟩

/-- C7: the process (Stage 1) command emits exactly one output row per input
row, in input order, preserving the input columns; a per-row classification
failure is absorbed into that row as the literal `"ERROR"` label with
confidence `0.0` rather than aborting the batch. -/
theorem process_never_drops_rows
    (classify : String → List String → Except String (List String × List ℚ))
    (candidate_tags : List String) (rows : List ProcRow) :
    (process_csv classify candidate_tags rows).length = rows.length ∧
    process_csv classify candidate_tags rows =
      rows.map (processRow classify candidate_tags) ∧
    (∀ r : ProcRow, (processRow classify candidate_tags r).toProcRow = r) ∧
    (∀ (r : ProcRow) (e : String),
      run_classification classify r.text candidate_tags = Except.error e →
      (processRow classify candidate_tags r).predicted_Tag = "ERROR" ∧
      (processRow classify candidate_tags r).confidence_Score = 0) := by
  refine ⟨by simp [process_csv], rfl, ?_, ?_⟩
  · intro r
    unfold processRow
    cases h : run_classification classify r.text candidate_tags with
    | ok v => cases v; rfl
    | error e => rfl
  · intro r e h
    unfold processRow
    rw [h]
    exact ⟨rfl, rfl⟩

/-- C7 witness: with a classifier that always fails, the one input row is
still present in the output, marked `"ERROR"` with confidence `0`. -/
theorem process_never_drops_rows_witness :
    run_classification (fun _ _ => Except.error "boom") "hello" ["Tag"] =
      Except.error "boom" ∧
    (processRow (fun _ _ => Except.error "boom") ["Tag"]
      ⟨"hello", []⟩).predicted_Tag = "ERROR" ∧
    (processRow (fun _ _ => Except.error "boom") ["Tag"]
      ⟨"hello", []⟩).confidence_Score = 0 :=
  have h : run_classification (fun _ _ => Except.error "boom") "hello" ["Tag"] =
      Except.error "boom" := rfl
  ⟨h, (process_never_drops_rows (fun _ _ => Except.error "boom") ["Tag"]
      []).2.2.2 ⟨"hello", []⟩ "boom" h⟩

/-- C8: in the audit and clean stages, a row whose `Confidence_Score` field
is missing or unparsable gets confidence `0.0`; the substitution is total
(never raises) and the row is still counted by the audit loop and still
produces exactly one clean output row. -/
theorem confidence_parse_fallback (r : InRow) (st : AuditState)
    (h : r.confidence_Score = none ∨
      ∃ s, r.confidence_Score = some s ∧ pyFloat s = none) :
    rowConfidence r = 0 ∧ (auditStep st r).total = st.total + 1 ∧
    (cleanOutputs [r]).length = 1 := by
  refine ⟨?_, auditStep_total st r, rfl⟩
  rcases h with h | ⟨s, hs, hp⟩
  · simp [rowConfidence, h]
  · simp [rowConfidence, hs, hp]

/-- C8 witness: a non-numeric confidence string fails to parse, the row gets
confidence `0` and is still counted and still produces a clean output row. -/
theorem confidence_parse_fallback_witness :
    pyFloat "not-a-number" = none ∧
    rowConfidence ⟨some "Corner Shop", some "Legal & Immigration",
      some "ERROR", some "not-a-number", []⟩ = 0 ∧
    (auditStep auditInit ⟨some "Corner Shop", some "Legal & Immigration",
      some "ERROR", some "not-a-number", []⟩).total = 1 :=
  have hp : pyFloat "not-a-number" = none := rfl
  have h := confidence_parse_fallback
    ⟨some "Corner Shop", some "Legal & Immigration", some "ERROR",
      some "not-a-number", []⟩ auditInit (Or.inr ⟨"not-a-number", rfl, hp⟩)
  ⟨hp, h.1, h.2.1⟩

/-- C9: the Clean Stage is idempotent: it writes the input columns back
unchanged, and re-running it on the `Category`/`Predicted_Tag`/
`Confidence_Score` columns of its own output (ignoring the two added
columns) reproduces identical `Audit_Status` and `Final_Tag` values. -/
theorem clean_idempotent (r : InRow) :
    (cleanRowFull r).toInRow = r ∧
    cleanRowFull ((cleanRowFull r).toInRow) = cleanRowFull r :=
  ⟨rfl, rfl⟩

/-- C10: the Clean Stage decision reads only the trimmed `Category`, the
trimmed `Predicted_Tag` and the parsed `Confidence_Score`: two rows agreeing
on those three values get identical `Audit_Status` and `Final_Tag`, whatever
their `Name` or other columns hold. -/
theorem clean_noninterference (r1 r2 : InRow)
    (h1 : rowOriginal r1 = rowOriginal r2)
    (h2 : rowPredicted r1 = rowPredicted r2)
    (h3 : rowConfidence r1 = rowConfidence r2) :
    (cleanRowFull r1).audit_Status = (cleanRowFull r2).audit_Status ∧
    (cleanRowFull r1).final_Tag = (cleanRowFull r2).final_Tag := by
  have hd : cleanDecision (rowOriginal r1) (rowPredicted r1) (rowConfidence r1) =
      cleanDecision (rowOriginal r2) (rowPredicted r2) (rowConfidence r2) := by
    rw [h1, h2, h3]
  constructor <;> simp [cleanRowFull, hd]

/-- C10 witness: two rows with the same three decision fields but different
names and extra columns receive the same status and final tag. -/
theorem clean_noninterference_witness :
    (cleanRowFull ⟨some "Alice Catering", some "Real Estate",
        some "None of the above", some "0.95", []⟩).audit_Status =
      (cleanRowFull ⟨some "Bob Plumbing", some " Real Estate ",
        some "None of the above", some "0.95",
        [("Notes", "call back")]⟩).audit_Status ∧
    (cleanRowFull ⟨some "Alice Catering", some "Real Estate",
        some "None of the above", some "0.95", []⟩).final_Tag =
      (cleanRowFull ⟨some "Bob Plumbing", some " Real Estate ",
        some "None of the above", some "0.95",
        [("Notes", "call back")]⟩).final_Tag :=
  clean_noninterference
    ⟨some "Alice Catering", some "Real Estate", some "None of the above",
      some "0.95", []⟩
    ⟨some "Bob Plumbing", some " Real Estate ", some "None of the above",
      some "0.95", [("Notes", "call back")]⟩
    rfl rfl rfl

end TagGenie
